import Mathlib

/-!
Verification development for the adya quiz application.

The definitions below are a shallow embedding of the core quiz engine:

* `src/utils.py` — `safe_json_loads`, `youtube_search_link`,
  `call_openai_for_feedback` (the response-normalization part),
  `load_questions`, `save_feedback_to_history`, `save_summary_to_history`;
* `src/modules/quiz_engine.py` — `run_quiz`'s session state machine
  (submit / advance / restart / completion rendering) and the score
  aggregation loop.

Python JSON values are modelled by the inductive type `JValue`; the
standard-library `json.loads` is modelled by the executable recursive
descent function `jsonParse` (numbers are restricted to integers, which
covers every value the application's schemas use). Python dictionaries
are modelled as insertion-ordered association lists with last-wins
update, matching CPython semantics. Exceptions are modelled with
`Except String`, the string naming the Python exception class raised.
-/

namespace Adya

/-- Whitespace characters recognised by Python's `str.strip` and the
regex class `\s` (restricted to ASCII, which is all the code relies on). -/
def pyIsSpace (c : Char) : Bool :=
  c = ' ' ∨ c = '\t' ∨ c = '\n' ∨ c = '\r' ∨ c = '\x0b' ∨ c = '\x0c'

/-- Model of Python's `str.strip()`: remove whitespace from both ends. -/
def pyStrip (s : String) : String :=
  String.mk (((s.data.dropWhile pyIsSpace).reverse.dropWhile pyIsSpace).reverse)

/-- Model of a decoded Python JSON value (`json.loads` result).
Numbers are restricted to integers; the application's schemas only use
integers and strings. -/
inductive JValue where
  | null : JValue
  | bool (b : Bool) : JValue
  | num (n : Int) : JValue
  | str (s : String) : JValue
  | arr (xs : List JValue) : JValue
  | obj (kvs : List (String × JValue)) : JValue
deriving Repr

/-- Python truthiness (`bool(v)`) of a decoded JSON value: `None`,
`False`, `0`, `""`, `[]` and the empty dict are falsy. -/
def JValue.truthy : JValue → Bool
  | .null => false
  | .bool b => b
  | .num n => n ≠ 0
  | .str s => s ≠ ""
  | .arr xs => !xs.isEmpty
  | .obj kvs => !kvs.isEmpty

/-- Python dict lookup `m.get(k)` on an association list with unique keys. -/
def dictGet {α : Type} (m : List (String × α)) (k : String) : Option α :=
  match m with
  | [] => none
  | (k', v) :: rest => if k' = k then some v else dictGet rest k

/-- Python dict assignment `m[k] = v`: overwrite in place if the key is
present (preserving insertion order), otherwise append. -/
def dictSet {α : Type} (m : List (String × α)) (k : String) (v : α) :
    List (String × α) :=
  match m with
  | [] => [(k, v)]
  | (k', v') :: rest =>
    if k' = k then (k, v) :: rest else (k', v') :: dictSet rest k v

mutual

/-- Boolean equality on decoded JSON values (the nested inductive
prevents deriving it). -/
def beqJV : JValue → JValue → Bool
  | .null, .null => true
  | .bool a, .bool b => a = b
  | .num a, .num b => a = b
  | .str a, .str b => a = b
  | .arr xs, .arr ys => beqArrJV xs ys
  | .obj a, .obj b => beqObjJV a b
  | _, _ => false

/-- Boolean equality on lists of decoded JSON values. -/
def beqArrJV : List JValue → List JValue → Bool
  | [], [] => true
  | x :: xs, y :: ys => beqJV x y && beqArrJV xs ys
  | _, _ => false

/-- Boolean equality on key-value lists of decoded JSON values. -/
def beqObjJV : List (String × JValue) → List (String × JValue) → Bool
  | [], [] => true
  | (k1, v1) :: xs, (k2, v2) :: ys => k1 = k2 && beqJV v1 v2 && beqObjJV xs ys
  | _, _ => false

end

mutual

theorem beqJV_iff : ∀ a b, beqJV a b = true ↔ a = b
  | .null, b => by cases b <;> simp [beqJV]
  | .bool a, b => by cases b <;> simp [beqJV]
  | .num n, b => by cases b <;> simp [beqJV]
  | .str s, b => by cases b <;> simp [beqJV]
  | .arr xs, b => by
    cases b <;> simp [beqJV]
    exact beqArrJV_iff xs _
  | .obj kvs, b => by
    cases b <;> simp [beqJV]
    exact beqObjJV_iff kvs _

theorem beqArrJV_iff : ∀ xs ys, beqArrJV xs ys = true ↔ xs = ys
  | [], ys => by cases ys <;> simp [beqArrJV]
  | x :: xs, ys => by
    cases ys with
    | nil => simp [beqArrJV]
    | cons y ys => simp [beqArrJV, beqJV_iff x y, beqArrJV_iff xs ys]

theorem beqObjJV_iff : ∀ xs ys, beqObjJV xs ys = true ↔ xs = ys
  | [], ys => by cases ys <;> simp [beqObjJV]
  | (k1, v1) :: xs, ys => by
    cases ys with
    | nil => simp [beqObjJV]
    | cons y ys =>
      obtain ⟨k2, v2⟩ := y
      simp [beqObjJV, beqJV_iff v1 v2, beqObjJV_iff xs ys, and_assoc]

end

instance : DecidableEq JValue := fun a b => decidable_of_iff _ (beqJV_iff a b)

instance {ε α : Type} [DecidableEq ε] [DecidableEq α] : DecidableEq (Except ε α) :=
  fun a b =>
    match a, b with
    | .ok x, .ok y => decidable_of_iff (x = y) (by simp)
    | .error e, .error f => decidable_of_iff (e = f) (by simp)
    | .ok _, .error _ => isFalse (by intro h; cases h)
    | .error _, .ok _ => isFalse (by intro h; cases h)

/-- Skip JSON whitespace (space, tab, newline, carriage return). -/
def skipWs : List Char → List Char
  | [] => []
  | c :: cs => if c = ' ' ∨ c = '\t' ∨ c = '\n' ∨ c = '\r' then skipWs cs else c :: cs

/-- Consume an expected literal character sequence. -/
def eatChars : List Char → List Char → Option (List Char)
  | [], cs => some cs
  | _ :: _, [] => none
  | p :: ps, c :: cs => if c = p then eatChars ps cs else none

/-- Parse the body of a JSON string after the opening quote, handling
the single-character escapes; returns the string and the rest of the
input after the closing quote. -/
def parseStringBody : List Char → Option (String × List Char)
  | [] => none
  | '"' :: cs => some ("", cs)
  | '\\' :: e :: cs =>
    (match e with
     | '"' => some '"'
     | '\\' => some '\\'
     | '/' => some '/'
     | 'n' => some '\n'
     | 't' => some '\t'
     | 'r' => some '\r'
     | 'b' => some '\x08'
     | 'f' => some '\x0c'
     | _ => none).bind fun d =>
      (parseStringBody cs).map fun (p : String × List Char) =>
        (String.mk (d :: p.1.data), p.2)
  | c :: cs =>
    (parseStringBody cs).map fun (p : String × List Char) =>
      (String.mk (c :: p.1.data), p.2)

/-- Accumulate a run of decimal digits into a natural number. -/
def readDigits : List Char → Nat → Nat × List Char
  | [], acc => (acc, [])
  | c :: cs, acc =>
    if c.isDigit then readDigits cs (acc * 10 + (c.toNat - 48)) else (acc, c :: cs)

/-- Parse a JSON integer (optional leading minus, then digits). -/
def parseNum : List Char → Option (JValue × List Char)
  | '-' :: cs =>
    match cs with
    | c :: _ =>
      if c.isDigit then
        let (n, r) := readDigits cs 0
        some (.num (-(n : Int)), r)
      else none
    | [] => none
  | cs =>
    match cs with
    | c :: _ =>
      if c.isDigit then
        let (n, r) := readDigits cs 0
        some (.num (n : Int), r)
      else none
    | [] => none

/-- What the recursive-descent parser is currently parsing: one value,
the remaining elements of an array (with the elements already parsed),
or the remaining members of an object. -/
inductive PMode where
  | value : PMode
  | elems (acc : List JValue) : PMode
  | members (acc : List (String × JValue)) : PMode

/-- Fueled recursive-descent parser for JSON; the fuel bounds the
combined nesting depth and element count and is chosen large enough at
the top entry point `jsonParse`. Duplicate object keys are resolved
last-wins, as `json.loads` does. -/
def parseF : Nat → PMode → List Char → Option (JValue × List Char)
  | 0, _, _ => none
  | f + 1, .value, input =>
    match skipWs input with
    | [] => none
    | '"' :: cs =>
      (parseStringBody cs).map fun (p : String × List Char) => (.str p.1, p.2)
    | 'n' :: cs => (eatChars ['u', 'l', 'l'] cs).map fun r => (.null, r)
    | 't' :: cs => (eatChars ['r', 'u', 'e'] cs).map fun r => (.bool true, r)
    | 'f' :: cs => (eatChars ['a', 'l', 's', 'e'] cs).map fun r => (.bool false, r)
    | '[' :: cs =>
      (match skipWs cs with
       | ']' :: r => some (.arr [], r)
       | cs2 => parseF f (.elems []) cs2)
    | '\x7b' :: cs =>
      (match skipWs cs with
       | '\x7d' :: r => some (.obj [], r)
       | cs2 => parseF f (.members []) cs2)
    | c :: cs => if c = '-' ∨ c.isDigit then parseNum (c :: cs) else none
  | f + 1, .elems acc, cs =>
    (parseF f .value cs).bind fun (p : JValue × List Char) =>
      match skipWs p.2 with
      | ',' :: r2 => parseF f (.elems (acc ++ [p.1])) r2
      | ']' :: r2 => some (.arr (acc ++ [p.1]), r2)
      | _ => none
  | f + 1, .members acc, cs =>
    match skipWs cs with
    | '"' :: cs1 =>
      (parseStringBody cs1).bind fun (pk : String × List Char) =>
        match skipWs pk.2 with
        | ':' :: r2 =>
          (parseF f .value r2).bind fun (pv : JValue × List Char) =>
            match skipWs pv.2 with
            | ',' :: r4 => parseF f (.members (dictSet acc pk.1 pv.1)) r4
            | '\x7d' :: r4 => some (.obj (dictSet acc pk.1 pv.1), r4)
            | _ => none
        | _ => none
    | _ => none

/-- Model of Python's `json.loads`: parse one JSON value and require
only trailing whitespace after it; any failure is the `None` our callers
observe through their try/except. -/
def jsonParse (s : String) : Option JValue :=
  match parseF (2 * s.length + 4) .value s.data with
  | some (v, rest) => if skipWs rest = [] then some v else none
  | none => none

/-- Replace each maximal run of whitespace by a single plus sign, as
`re.sub(r"\s+", "+", ...)` does; the flag records whether the previous
character was whitespace. -/
def collapseWs : List Char → Bool → List Char
  | [], _ => []
  | c :: cs, prevWs =>
    if pyIsSpace c then
      (if prevWs then [] else ['+']) ++ collapseWs cs true
    else c :: collapseWs cs false

/-- Embedding of `utils.youtube_search_link` (src/utils.py lines 177-179):
strip the query and URL-encode whitespace runs as plus signs onto the
fixed video-search template. -/
def youtube_search_link (query : String) : String :=
  "https://www.youtube.com/results?search_query=" ++
    String.mk (collapseWs (pyStrip query).data false)

/-- Whether the first list is a prefix of the second. -/
def listIsPref : List Char → List Char → Bool
  | [], _ => true
  | _ :: _, [] => false
  | a :: as, b :: bs => a = b && listIsPref as bs

/-- Python's `str.startswith`. -/
def pyStartsWith (s p : String) : Bool := listIsPref p.data s.data

/-- Python's `str.endswith`. -/
def pyEndsWith (s p : String) : Bool := listIsPref p.data.reverse s.data.reverse

/-- Embedding of `utils.safe_json_loads` (src/utils.py lines 181-192):
strip, remove an optional surrounding code fence, and attempt a strict
JSON decode; any failure yields `none`. -/
def safe_json_loads (text : String) : Option JValue :=
  let t := pyStrip text
  let t := if pyStartsWith t "```json" then t.drop 7
           else if pyStartsWith t "```" then t.drop 3
           else t
  let t := if pyEndsWith t "```" then t.dropRight 3 else t
  jsonParse (pyStrip t)

/-- The fallback feedback dict built by `utils.call_openai_for_feedback`
(src/utils.py lines 318-328) when the reply cannot be used as a dict. -/
def fallbackFeedback (content : String) : List (String × JValue) :=
  [("verdict", .str "Partly correct"),
   ("score_band", .str "0"),
   ("feedback", .str "Feedback could not be parsed as JSON. Showing raw response below."),
   ("model_answer", .str ""),
   ("why", .str content),
   ("misconceptions", .arr []),
   ("next_steps", .arr []),
   ("video_queries", .arr [])]

/-- One synthesized video link entry, the dict
`\x7b"query": q, "url": youtube_search_link(q)\x7d`. -/
def videoLinkObj (q : String) : JValue :=
  .obj [("query", .str q), ("url", .str (youtube_search_link q))]

/-- Evaluation of `[\x7b...\x7d for q in vqs[:6]]` in
`utils.call_openai_for_feedback` line 331 on the dynamic value found
under `video_queries`: a list or a string is sliced and iterated (a
non-string list element makes `query.strip()` raise `AttributeError`),
anything else is unsubscriptable and raises `TypeError`. -/
def linkList : List JValue → Except String (List JValue)
  | [] => .ok []
  | .str q :: rest => (linkList rest).map fun ls => videoLinkObj q :: ls
  | _ :: _ => .error "AttributeError"

/-- Dispatch of the comprehension on the dynamic `video_queries` value:
a list or a string is sliced and iterated, anything else is
unsubscriptable and raises `TypeError`. -/
def linksFromQueries : JValue → Except String (List JValue)
  | .arr xs => linkList (xs.take 6)
  | .str s =>
    Except.ok ((s.data.take 6).map fun c => videoLinkObj (String.mk [c]))
  | _ => Except.error "TypeError"

/-- Lines 330-331 of src/utils.py: read `video_queries` (defaulting and
`or []`-replacing falsy values by the empty list), build the first six
video links, and store them under `video_links`. -/
def addVideoLinks (kvs : List (String × JValue)) : Except String JValue :=
  let vq := (dictGet kvs "video_queries").getD (.arr [])
  let vq := if vq.truthy then vq else .arr []
  (linksFromQueries vq).map fun links => JValue.obj (dictSet kvs "video_links" (.arr links))

/-- Embedding of the response-normalization part of
`utils.call_openai_for_feedback` (src/utils.py lines 315-333), taking
the raw model reply `content` as input: decode with `safe_json_loads`,
replace a falsy result by the fallback dict (`if not parsed:`), then
synthesize `video_links`. A truthy decoded value that is not a dict
makes `parsed.get` raise `AttributeError`. -/
def normalizeFeedback (content : String) : Except String JValue :=
  let parsed := (safe_json_loads content).getD .null
  if parsed.truthy then
    match parsed with
    | .obj kvs => addVideoLinks kvs
    | _ => Except.error "AttributeError"
  else
    addVideoLinks (fallbackFeedback content)

mutual

/-- Python's `repr` on a decoded JSON value (string escapes inside
`repr` are not reproduced, which no claim relies on). -/
def pyRepr : JValue → String
  | .null => "None"
  | .bool true => "True"
  | .bool false => "False"
  | .num n => toString n
  | .str s => "\x27" ++ s ++ "\x27"
  | .arr xs => "[" ++ pyReprElems xs ++ "]"
  | .obj kvs => "\x7b" ++ pyReprPairs kvs ++ "\x7d"

/-- Comma-separated `repr` of list elements. -/
def pyReprElems : List JValue → String
  | [] => ""
  | [v] => pyRepr v
  | v :: vs => pyRepr v ++ ", " ++ pyReprElems vs

/-- Comma-separated `repr` of dict items. -/
def pyReprPairs : List (String × JValue) → String
  | [] => ""
  | [kv] => "\x27" ++ kv.1 ++ "\x27: " ++ pyRepr kv.2
  | kv :: kvs => "\x27" ++ kv.1 ++ "\x27: " ++ pyRepr kv.2 ++ ", " ++ pyReprPairs kvs

end

/-- Python's `str()` on a decoded JSON value: a string is returned
as-is, anything else rendered as by `repr`. -/
def pyStr (v : JValue) : String :=
  match v with
  | .str s => s
  | _ => pyRepr v

/-- The first maximal run of decimal digits in the character list, as
found by `re.findall(r"\d+", s)[0]`. -/
def firstDigitRun : List Char → Option (List Char)
  | [] => none
  | c :: cs =>
    if c.isDigit then some (c :: cs.takeWhile Char.isDigit) else firstDigitRun cs

/-- Digit characters to a natural number, as Python's `int` on a digit
string. -/
def digitsToNat (ds : List Char) : Nat :=
  ds.foldl (fun a c => a * 10 + (c.toNat - 48)) 0

/-- `int(re.findall(r"\d+", str(sb))[0])` with no match treated as 0,
as in the score loop of src/modules/quiz_engine.py lines 108-111. -/
def firstNumber (s : String) : Nat :=
  match firstDigitRun s.data with
  | some ds => digitsToNat ds
  | none => 0

/-- One entry of the session attempt log, the dict appended at
src/modules/quiz_engine.py lines 191-194. -/
structure LogEntry where
  id : String
  topic : String
  marks : Nat
  question : String
  student_answer : String
  feedback : JValue
deriving Repr, DecidableEq

/-- Contribution of one attempt-log entry to the score totals
(src/modules/quiz_engine.py lines 106-114): read
`feedback.get("score_band", "0")`, extract the first digit run of its
`str()` (0 when there is none), and count the entry's marks. A
non-dict feedback raises `AttributeError` inside the bare `try`, which
`except: pass` turns into a zero contribution to both totals. -/
def entryContrib (e : LogEntry) : Nat × Nat :=
  match e.feedback with
  | .obj kvs =>
    let sb := (dictGet kvs "score_band").getD (.str "0")
    (firstNumber (pyStr sb), e.marks)
  | _ => (0, 0)

/-- Embedding of the score-aggregation loop
(src/modules/quiz_engine.py lines 104-114): total achieved score and
total possible marks over the attempt log. -/
def scoreAggregate (log : List LogEntry) : Nat × Nat :=
  log.foldl (fun acc e => (acc.1 + (entryContrib e).1, acc.2 + (entryContrib e).2)) (0, 0)

/-- Embedding of the percentage display rule
(src/modules/quiz_engine.py lines 116-120): `int((score/marks)*100)`
when marks are positive, no percentage otherwise. Python's float
arithmetic is modelled by the exact floor of the rational value. -/
def scorePercent (log : List LogEntry) : Option Nat :=
  let t := scoreAggregate log
  if t.2 > 0 then some (t.1 * 100 / t.2) else none

/-- The question data model (`utils.Question`, src/utils.py lines
126-132), as used by the session state machine. -/
structure Question where
  id : String
  topic : String
  marks : Nat
  prompt : String
  answer_type : String := "text"
deriving Repr, DecidableEq

/-- One record persisted to history during a session: either an answered
question (`utils.save_feedback_to_history`, called from
src/modules/quiz_engine.py line 195) or a final summary
(`utils.save_summary_to_history`, line 96). -/
inductive HRec where
  | question (subject : String) (qid : String) (topic : String)
      (prompt : String) (answer : String) (fb : JValue) : HRec
  | summary (s : JValue) : HRec
deriving Repr, DecidableEq

/-- The subject-scoped session state of `run_quiz`
(src/modules/quiz_engine.py lines 54-63): current index, answers map,
feedback map, attempt log, cached final summary, plus the sequence of
records persisted to history so far. -/
structure SessionState where
  idx : Nat
  answers : List (String × String)
  feedback : List (String × JValue)
  qa_log : List LogEntry
  final_summary : Option JValue
  history : List HRec
deriving Repr, DecidableEq

/-- The freshly initialised session state
(src/modules/quiz_engine.py lines 54-63). -/
def initSession : SessionState :=
  { idx := 0, answers := [], feedback := [], qa_log := [],
    final_summary := none, history := [] }

/-- Embedding of the submit handler (src/modules/quiz_engine.py lines
182-199). The button is disabled — a no-op — when the trimmed answer is
empty or feedback already exists for the current question. Otherwise
the answers map is updated first, then the grading call runs: its
outcome is injected as `res` (`Except.error` models
`call_openai_for_feedback` raising, in which case the handler stops with
only the answers map changed); on success the feedback map, attempt log
and history are all updated. Persistence is modelled as succeeding. -/
def submit (qs : List Question) (s : SessionState) (subject ans : String)
    (res : Except Unit JValue) : SessionState :=
  match qs[s.idx]? with
  | none => s
  | some q =>
    if pyStrip ans = "" ∨ (dictGet s.feedback q.id).isSome then s
    else
      match res with
      | .error _ => { s with answers := dictSet s.answers q.id (pyStrip ans) }
      | .ok fb =>
        { s with
          answers := dictSet s.answers q.id (pyStrip ans),
          feedback := dictSet s.feedback q.id fb,
          qa_log := s.qa_log ++
            [{ id := q.id, topic := q.topic, marks := q.marks,
               question := q.prompt, student_answer := pyStrip ans, feedback := fb }],
          history := s.history ++
            [.question subject q.id q.topic q.prompt (pyStrip ans) fb] }

/-- Embedding of the advance handler (src/modules/quiz_engine.py lines
201-205): the button is disabled unless feedback exists for the current
question; a click increments the index. When the index is already past
the last question this interface is not rendered at all. -/
def advanceOp (qs : List Question) (s : SessionState) : SessionState :=
  match qs[s.idx]? with
  | none => s
  | some q =>
    if (dictGet s.feedback q.id).isSome then { s with idx := s.idx + 1 } else s

/-- Embedding of the completion branch (src/modules/quiz_engine.py lines
84-99), reached only when the index is at or past the last question.
When the cached summary is `None`, the summary call runs (outcome
injected as `res`): on failure the handler stops with nothing changed;
on success the summary is cached, tagged with the subject and persisted
— the subject tagging mutates a dict in place, so a non-dict summary
raises after caching but before persisting. When a summary is already
cached, nothing is generated or persisted. -/
def renderComplete (qs : List Question) (s : SessionState) (subject : String)
    (res : Except Unit JValue) : SessionState :=
  if s.idx < qs.length then s
  else
    match s.final_summary with
    | some _ => s
    | none =>
      match res with
      | .error _ => s
      | .ok sm =>
        match sm with
        | .obj kvs =>
          let sm2 := JValue.obj (dictSet kvs "subject" (.str subject))
          { s with final_summary := some sm2,
                   history := s.history ++ [.summary sm2] }
        | _ => { s with final_summary := some sm }

/-- One user interaction with the session: submitting the answer text,
clicking the advance button, re-entering the completion view, or
clicking Restart Quiz. External call outcomes are injected parameters. -/
inductive Op where
  | submit (subject ans : String) (res : Except Unit JValue) : Op
  | advance : Op
  | render (subject : String) (res : Except Unit JValue) : Op
  | reset : Op

/-- A trivial discriminator used to state that an operation is not the
explicit reset. -/
def Op.isReset : Op → Bool
  | .reset => true
  | _ => false

/-- Step function of the session state machine: dispatch one interaction.
Restart Quiz (src/modules/quiz_engine.py lines 148-154) clears the five
session keys but does not touch persisted history. -/
def step (qs : List Question) (s : SessionState) : Op → SessionState
  | .submit subject ans res => submit qs s subject ans res
  | .advance => advanceOp qs s
  | .render subject res => renderComplete qs s subject res
  | .reset =>
    { s with idx := 0, answers := [], feedback := [], qa_log := [],
             final_summary := none }

/-- Run a sequence of interactions from a state. -/
def runOps (qs : List Question) (s : SessionState) (ops : List Op) : SessionState :=
  ops.foldl (step qs) s

/-- A question as constructed by `Question(**q)` in `utils.load_questions`
from one decoded JSON object: the dataclass performs no type validation,
so every field is kept as the decoded value found. -/
structure QRec where
  id : JValue
  topic : JValue
  marks : JValue
  prompt : JValue
  answer_type : JValue
deriving Repr, DecidableEq

/-- Evaluation of `Question(**q)` on one decoded JSON value
(src/utils.py line 165): `q` must be a dict whose keys are a subset of
the dataclass fields and contain the four required ones, else the call
raises `TypeError`; `answer_type` defaults to `"text"`. -/
def mkQuestionRec (v : JValue) : Except String QRec :=
  match v with
  | .obj kvs =>
    if kvs.all (fun kv =>
        kv.1 = "id" ∨ kv.1 = "topic" ∨ kv.1 = "marks" ∨ kv.1 = "prompt" ∨
        kv.1 = "answer_type") then
      match dictGet kvs "id", dictGet kvs "topic", dictGet kvs "marks",
            dictGet kvs "prompt" with
      | some i, some t, some m, some p =>
        .ok { id := i, topic := t, marks := m, prompt := p,
              answer_type := (dictGet kvs "answer_type").getD (.str "text") }
      | _, _, _, _ => .error "TypeError"
    else .error "TypeError"
  | _ => .error "TypeError"

/-- Evaluation of the comprehension `[Question(**q) for q in data]`
(src/utils.py line 165): questions are built in order and the first
invalid element raises. -/
def mkQuestionList : List JValue → Except String (List QRec)
  | [] => .ok []
  | v :: rest =>
    match mkQuestionRec v with
    | .error e => .error e
    | .ok q => (mkQuestionList rest).map fun qs => q :: qs

/-- Embedding of `utils.load_questions` (src/utils.py lines 143-166).
`sheetsRes` injects the outcome of `sheets_db.get_questions` when the
sheets backend imported (`hasSheets`); any exception there or while
building questions from sheets rows falls through to the local file, as
does falsy (empty) sheets data. `localFile` is the contents of the
subject's local JSON file, `none` when the file does not exist — in
which case the function returns the empty list. An existing file that
fails to decode or contains an invalid question object makes the
function raise. A non-list document is iterated by the comprehension
`[Question(**q) for q in data]`: a dict yields its keys and a string its
characters, so a non-empty dict or string makes `Question(**q)` raise
`TypeError` at the first element while an empty one iterates vacuously
and silently yields the empty question list; a number, boolean or null
is not iterable and raises `TypeError` at the `for` itself. -/
def load_questions (hasSheets : Bool) (sheetsRes : Except Unit (List JValue))
    (localFile : Option String) : Except String (List QRec) :=
  let fromLocal : Except String (List QRec) :=
    match localFile with
    | none => .ok []
    | some contents =>
      match jsonParse contents with
      | none => .error "JSONDecodeError"
      | some (.arr items) => mkQuestionList items
      | some (.obj kvs) => if kvs.isEmpty then .ok [] else .error "TypeError"
      | some (.str t) => if t = "" then .ok [] else .error "TypeError"
      | some _ => .error "TypeError"
  if hasSheets then
    match sheetsRes with
    | .error _ => fromLocal
    | .ok rows =>
      if rows.isEmpty then fromLocal
      else
        match mkQuestionList rows with
        | .ok qs => .ok qs
        | .error _ => fromLocal
  else fromLocal

/-- The record appended by `utils.save_feedback_to_history`
(src/utils.py lines 196-203 and 216-217) on the local-file path, with
the timestamp injected. -/
def feedbackRecord (q : Question) (answer : String) (fb : JValue)
    (subject ts : String) : JValue :=
  .obj [("subject", .str subject), ("question_id", .str q.id),
        ("question_topic", .str q.topic), ("question_prompt", .str q.prompt),
        ("student_answer", .str answer), ("feedback", fb),
        ("timestamp", .str ts), ("type", .str "question")]

/-- Read the existing local history array as lines 222-227 /
254-259 of src/utils.py do: a missing file or a file whose contents fail
to decode yields the empty list (the decode error is swallowed); a file
decoding to a non-list makes the subsequent `history.append` raise. -/
def readHistoryArr (oldFile : Option String) : Except String (List JValue) :=
  match oldFile with
  | none => .ok []
  | some s =>
    match jsonParse s with
    | none => .ok []
    | some (.arr xs) => .ok xs
    | some _ => .error "AttributeError"

/-- Embedding of the local-file path of `utils.save_feedback_to_history`
(src/utils.py lines 214-231), reached when the sheets backend is absent
or its append failed: read the old array (tolerating a corrupt file),
append the new record, and return the array written back wholesale. -/
def save_feedback_to_history (q : Question) (answer : String) (fb : JValue)
    (subject ts : String) (oldFile : Option String) :
    Except String (List JValue) :=
  (readHistoryArr oldFile).map fun h => h ++ [feedbackRecord q answer fb subject ts]

/-- The record appended by `utils.save_summary_to_history`
(src/utils.py lines 245-249) on the local-file path. -/
def summaryRecord (summary : JValue) (ts : String) : JValue :=
  .obj [("timestamp", .str ts), ("type", .str "summary"), ("content", summary)]

/-- Embedding of the local-file path of `utils.save_summary_to_history`
(src/utils.py lines 244-263), analogous to the feedback variant. -/
def save_summary_to_history (summary : JValue) (ts : String)
    (oldFile : Option String) : Except String (List JValue) :=
  (readHistoryArr oldFile).map fun h => h ++ [summaryRecord summary ts]

/-! ## Helper lemmas -/

theorem dictGet_dictSet_self {α : Type} (m : List (String × α)) (k : String) (v : α) :
    dictGet (dictSet m k v) k = some v := by
  induction m with
  | nil => simp [dictGet, dictSet]
  | cons a rest ih =>
    obtain ⟨k1, v1⟩ := a
    by_cases h1 : k1 = k
    · subst h1
      simp [dictGet, dictSet]
    · simp [dictGet, dictSet, h1, ih]

theorem dictGet_dictSet_ne {α : Type} (m : List (String × α)) (k k' : String) (v : α)
    (h : k ≠ k') : dictGet (dictSet m k v) k' = dictGet m k' := by
  induction m with
  | nil => simp [dictGet, dictSet, h]
  | cons a rest ih =>
    obtain ⟨k1, v1⟩ := a
    by_cases h1 : k1 = k
    · subst h1
      simp [dictGet, dictSet, h]
    · by_cases h2 : k1 = k'
      · simp [dictGet, dictSet, h1, h2, Ne.symm h]
      · simp [dictGet, dictSet, h1, h2, ih]

theorem submit_idx (qs : List Question) (s : SessionState) (subject ans : String)
    (res : Except Unit JValue) : (submit qs s subject ans res).idx = s.idx := by
  unfold submit
  cases hq : qs[s.idx]? with
  | none => rfl
  | some q =>
    dsimp only
    by_cases hg : pyStrip ans = "" ∨ (dictGet s.feedback q.id).isSome = true
    · rw [if_pos hg]
    · rw [if_neg hg]
      cases res <;> rfl

theorem advanceOp_idx (qs : List Question) (s : SessionState) :
    (advanceOp qs s).idx = s.idx ∨ (advanceOp qs s).idx = s.idx + 1 := by
  unfold advanceOp
  split
  · exact Or.inl rfl
  · split
    · exact Or.inr rfl
    · exact Or.inl rfl

theorem renderComplete_idx (qs : List Question) (s : SessionState) (subject : String)
    (res : Except Unit JValue) : (renderComplete qs s subject res).idx = s.idx := by
  unfold renderComplete
  split
  · rfl
  · split
    · rfl
    · cases res with
      | error e => rfl
      | ok sm => cases sm <;> rfl

theorem renderComplete_of_some (qs : List Question) (s : SessionState)
    (subject : String) (res : Except Unit JValue) (hs : s.final_summary.isSome) :
    renderComplete qs s subject res = s := by
  unfold renderComplete
  split
  · rfl
  · split
    · rfl
    · rename_i hnone
      rw [hnone] at hs
      cases hs

/-! ## Claim C1 -/

/-- C1 counterexample: with a fresh one-question session, submitting the
answer "hi" while the grading call raises leaves the answers map
changed — the stored draft under the question id — so the session state
is not identical to its value before the submit. -/
theorem c1_counterexample :
    (submit [{ id := "q1", topic := "T", marks := 1, prompt := "P" }]
        initSession "Chemistry" "hi" (Except.error ())).answers ≠
      initSession.answers := by
  decide

/-- C1 (amended): if the grading call or normalization raises during
submit of an answer for the current question, the feedback map, the
attempt log, the index, the cached summary and the persisted history are
all unchanged — but the answers map is updated with the trimmed answer
before the grading call, so it is either unchanged (when the submit was
gated off) or holds the new draft. -/
theorem c1_submit_failure_amended (qs : List Question) (s : SessionState)
    (subject ans : String) :
    (submit qs s subject ans (Except.error ())).feedback = s.feedback ∧
    (submit qs s subject ans (Except.error ())).qa_log = s.qa_log ∧
    (submit qs s subject ans (Except.error ())).history = s.history ∧
    (submit qs s subject ans (Except.error ())).idx = s.idx ∧
    (submit qs s subject ans (Except.error ())).final_summary = s.final_summary ∧
    ((submit qs s subject ans (Except.error ())).answers = s.answers ∨
      ∃ q, qs[s.idx]? = some q ∧
        (submit qs s subject ans (Except.error ())).answers =
          dictSet s.answers q.id (pyStrip ans)) := by
  unfold submit
  cases hq : qs[s.idx]? with
  | none => exact ⟨rfl, rfl, rfl, rfl, rfl, Or.inl rfl⟩
  | some q =>
    dsimp only
    by_cases hg : pyStrip ans = "" ∨ (dictGet s.feedback q.id).isSome = true
    · rw [if_pos hg]
      exact ⟨rfl, rfl, rfl, rfl, rfl, Or.inl rfl⟩
    · rw [if_neg hg]
      exact ⟨rfl, rfl, rfl, rfl, rfl, Or.inr ⟨q, rfl, rfl⟩⟩

/-! ## Claim C5 -/

/-- C5 at the failing input: the raw reply `"[1, 2]"` decodes to a
truthy JSON array, so the normalization step of
`call_openai_for_feedback` calls `.get` on a list and raises
`AttributeError` instead of returning a feedback record. -/
theorem c5_normalize_raises_on_nondict :
    normalizeFeedback "[1, 2]" = Except.error "AttributeError" := by
  decide

/-! ## Claim C7 -/

/-- The three-entry attempt log of the score-aggregation example:
score bands "2", "not sure, maybe 1" and "" with marks 2, 2 and 1. -/
def aggExampleLog : List LogEntry :=
  [{ id := "q1", topic := "t1", marks := 2, question := "p1",
     student_answer := "a1", feedback := .obj [("score_band", .str "2")] },
   { id := "q2", topic := "t2", marks := 2, question := "p2",
     student_answer := "a2",
     feedback := .obj [("score_band", .str "not sure, maybe 1")] },
   { id := "q3", topic := "t3", marks := 1, question := "p3",
     student_answer := "a3", feedback := .obj [("score_band", .str "")] }]

/-- C7: on the attempt log whose score bands are "2",
"not sure, maybe 1" and "" with marks 2, 2, 1, the (everywhere-total)
score aggregation extracts 2, 1 and 0, giving achieved 3 of possible 5
and 60 percent. -/
theorem c7_score_aggregation_example :
    scoreAggregate aggExampleLog = (3, 5) ∧
    scorePercent aggExampleLog = some 60 := by
  exact ⟨rfl, rfl⟩

/-! ## Claim C10 -/

/-- C10: when the local history file exists but its contents fail to
parse as JSON, appending a feedback record or a summary record silently
succeeds and the file is rewritten as an array holding only the new
record — every previously stored record is discarded. -/
theorem c10_corrupt_history_replaced :
    (∀ q answer fb subject ts s, jsonParse s = none →
       save_feedback_to_history q answer fb subject ts (some s) =
         Except.ok [feedbackRecord q answer fb subject ts]) ∧
    (∀ summary ts s, jsonParse s = none →
       save_summary_to_history summary ts (some s) =
         Except.ok [summaryRecord summary ts]) := by
  constructor
  · intro q answer fb subject ts s h
    simp [save_feedback_to_history, readHistoryArr, h, Except.map]
  · intro summary ts s h
    simp [save_summary_to_history, readHistoryArr, h, Except.map]

/-- C10 witness: on the concrete corrupt file contents `"corrupt \x7b"`
both savers rewrite the file to the single new record. -/
theorem c10_corrupt_history_replaced_witness :
    save_feedback_to_history { id := "q1", topic := "T", marks := 2, prompt := "P" }
        "ans" (JValue.obj []) "Chemistry" "ts1" (some "corrupt \x7b") =
      Except.ok [feedbackRecord { id := "q1", topic := "T", marks := 2, prompt := "P" }
        "ans" (JValue.obj []) "Chemistry" "ts1"] ∧
    save_summary_to_history (JValue.str "sum") "ts2" (some "corrupt \x7b") =
      Except.ok [summaryRecord (JValue.str "sum") "ts2"] :=
  ⟨c10_corrupt_history_replaced.1 _ "ans" (JValue.obj []) "Chemistry" "ts1"
      "corrupt \x7b" rfl,
   c10_corrupt_history_replaced.2 (JValue.str "sum") "ts2" "corrupt \x7b" rfl⟩

/-! ## Claim C2 -/

theorem step_idx_le (qs : List Question) (s : SessionState) (op : Op)
    (hop : Op.isReset op = false) : s.idx ≤ (step qs s op).idx := by
  cases op with
  | submit subject ans res => simp [step, submit_idx]
  | advance =>
    rcases advanceOp_idx qs s with h | h <;> simp [step, h]
  | render subject res => simp [step, renderComplete_idx]
  | reset => simp [Op.isReset] at hop

theorem runOps_idx_le (qs : List Question) (s : SessionState) (ops : List Op)
    (h : ∀ o ∈ ops, Op.isReset o = false) : s.idx ≤ (runOps qs s ops).idx := by
  induction ops generalizing s with
  | nil => exact Nat.le_refl _
  | cons o rest ih =>
    have h1 := h o (by simp)
    have h2 : ∀ o2 ∈ rest, Op.isReset o2 = false := fun o2 hm => h o2 (by simp [hm])
    exact Nat.le_trans (step_idx_le qs s o h1) (ih (step qs s o) h2)

/-- C2: across any single operation or any sequence of operations that
contains no explicit reset, the session index never decreases; the
explicit reset returns it to 0; and an advance that changes the index
requires that feedback for the current question already exists
beforehand (no-skip). -/
theorem c2_index_monotone :
    (∀ qs s op, Op.isReset op = false → s.idx ≤ (step qs s op).idx) ∧
    (∀ qs s ops, (∀ o ∈ ops, Op.isReset o = false) →
       s.idx ≤ (runOps qs s ops).idx) ∧
    (∀ qs s, (step qs s Op.reset).idx = 0) ∧
    (∀ qs s, (advanceOp qs s).idx ≠ s.idx →
       ∃ q, qs[s.idx]? = some q ∧ (dictGet s.feedback q.id).isSome) := by
  refine ⟨step_idx_le, runOps_idx_le, fun qs s => rfl, ?_⟩
  intro qs s hne
  unfold advanceOp at hne
  cases hq : qs[s.idx]? with
  | none => rw [hq] at hne; exact absurd rfl hne
  | some q =>
    rw [hq] at hne
    dsimp only at hne
    by_cases hfb : (dictGet s.feedback q.id).isSome = true
    · exact ⟨q, rfl, hfb⟩
    · rw [if_neg hfb] at hne
      exact absurd rfl hne

/-- C2 witness: a concrete non-reset operation on the fresh session does
not decrease the index. -/
theorem c2_index_monotone_witness :
    Op.isReset Op.advance = false ∧
    initSession.idx ≤ (step [] initSession Op.advance).idx :=
  ⟨rfl, c2_index_monotone.1 [] initSession Op.advance rfl⟩

/-! ## Claim C3 -/

/-- C3: a submit is a no-op when the trimmed answer is empty, and a
no-op when feedback for the current question id already exists; and no
submit ever overwrites existing feedback for any question id. -/
theorem c3_submit_gating :
    (∀ qs s subject ans res, pyStrip ans = "" →
       submit qs s subject ans res = s) ∧
    (∀ qs s subject ans res q, qs[s.idx]? = some q →
       (dictGet s.feedback q.id).isSome → submit qs s subject ans res = s) ∧
    (∀ qs s subject ans res qid fb, dictGet s.feedback qid = some fb →
       dictGet (submit qs s subject ans res).feedback qid = some fb) := by
  refine ⟨?_, ?_, ?_⟩
  · intro qs s subject ans res h
    unfold submit
    cases hq : qs[s.idx]? with
    | none => rfl
    | some q =>
      dsimp only
      rw [if_pos (Or.inl h)]
  · intro qs s subject ans res q hq hfb
    unfold submit
    rw [hq]
    dsimp only
    rw [if_pos (Or.inr hfb)]
  · intro qs s subject ans res qid fb hfb
    unfold submit
    cases hq : qs[s.idx]? with
    | none => exact hfb
    | some q =>
      dsimp only
      by_cases hg : pyStrip ans = "" ∨ (dictGet s.feedback q.id).isSome = true
      · rw [if_pos hg]; exact hfb
      · rw [if_neg hg]
        have hnone : dictGet s.feedback q.id = none := by
          rcases not_or.mp hg with ⟨h1, h2⟩
          cases hcur : dictGet s.feedback q.id with
          | none => rfl
          | some v => exact absurd (by simp [hcur]) h2
        have hne : q.id ≠ qid := by
          intro he
          rw [he, hfb] at hnone
          cases hnone
        cases res with
        | error e => exact hfb
        | ok fb2 =>
          dsimp only
          rw [dictGet_dictSet_ne _ _ _ _ hne]
          exact hfb

/-- C3 witness: submitting a whitespace-only answer on the fresh
one-question session is a no-op. -/
theorem c3_submit_gating_witness :
    pyStrip "   " = "" ∧
    submit [{ id := "q1", topic := "T", marks := 1, prompt := "P" }]
      initSession "Chemistry" "   " (Except.error ()) = initSession :=
  ⟨by decide,
   c3_submit_gating.1 [{ id := "q1", topic := "T", marks := 1, prompt := "P" }]
     initSession "Chemistry" "   " (Except.error ()) (by decide)⟩

/-! ## Claim C4 -/

/-- C4: whenever the raw reply fails to decode as JSON after optional
code-fence stripping, normalization returns the fallback feedback:
verdict `Partly correct`, score band the string "0", `why` holding the
raw reply verbatim, and empty misconceptions, next-steps, video-queries
and video-links lists. -/
theorem c4_fallback_feedback (content : String)
    (h : safe_json_loads content = none) :
    ∃ kvs, normalizeFeedback content = Except.ok (JValue.obj kvs) ∧
      dictGet kvs "verdict" = some (.str "Partly correct") ∧
      dictGet kvs "score_band" = some (.str "0") ∧
      dictGet kvs "why" = some (.str content) ∧
      dictGet kvs "misconceptions" = some (.arr []) ∧
      dictGet kvs "next_steps" = some (.arr []) ∧
      dictGet kvs "video_queries" = some (.arr []) ∧
      dictGet kvs "video_links" = some (.arr []) := by
  refine ⟨dictSet (fallbackFeedback content) "video_links" (.arr []),
    ?_, rfl, rfl, rfl, rfl, rfl, rfl, rfl⟩
  unfold normalizeFeedback
  rw [h]
  rfl

/-- C4 witness: the prose-only reply "hello" fails to decode and yields
the fallback feedback. -/
theorem c4_fallback_feedback_witness :
    safe_json_loads "hello" = none ∧
    (∃ kvs, normalizeFeedback "hello" = Except.ok (JValue.obj kvs) ∧
      dictGet kvs "verdict" = some (.str "Partly correct") ∧
      dictGet kvs "score_band" = some (.str "0") ∧
      dictGet kvs "why" = some (.str "hello") ∧
      dictGet kvs "misconceptions" = some (.arr []) ∧
      dictGet kvs "next_steps" = some (.arr []) ∧
      dictGet kvs "video_queries" = some (.arr []) ∧
      dictGet kvs "video_links" = some (.arr [])) :=
  ⟨by decide, c4_fallback_feedback "hello" (by decide)⟩

/-! ## Claim C6 -/

/-- C6: the completion view generates and persists the summary only when
the cached summary is null — re-entering it with a cached summary is a
no-op; any history change it makes is exactly one appended summary
record, made from a null cache and cached afterwards; and once a render
has produced a cached summary, rendering again changes nothing. -/
theorem c6_summary_once :
    (∀ qs s subject res v, s.final_summary = some v →
       renderComplete qs s subject res = s) ∧
    (∀ qs s subject res,
       (renderComplete qs s subject res).history ≠ s.history →
       s.final_summary = none ∧
       ∃ sm, (renderComplete qs s subject res).history =
               s.history ++ [HRec.summary sm] ∧
             (renderComplete qs s subject res).final_summary = some sm) ∧
    (∀ qs s subject res subject2 res2,
       ((renderComplete qs s subject res).final_summary).isSome →
       renderComplete qs (renderComplete qs s subject res) subject2 res2 =
         renderComplete qs s subject res) := by
  refine ⟨?_, ?_, ?_⟩
  · intro qs s subject res v hv
    exact renderComplete_of_some qs s subject res (by rw [hv]; rfl)
  · intro qs s subject res hne
    unfold renderComplete at hne ⊢
    by_cases hidx : s.idx < qs.length
    · rw [if_pos hidx] at hne
      exact absurd rfl hne
    · rw [if_neg hidx] at hne ⊢
      cases hsum : s.final_summary with
      | some v => rw [hsum] at hne; exact absurd rfl hne
      | none =>
        rw [hsum] at hne
        cases res with
        | error e => exact absurd rfl hne
        | ok sm =>
          cases sm with
          | obj kvs => exact ⟨rfl, _, rfl, rfl⟩
          | null => exact absurd rfl hne
          | bool b => exact absurd rfl hne
          | num n => exact absurd rfl hne
          | str t => exact absurd rfl hne
          | arr xs => exact absurd rfl hne
  · intro qs s subject res subject2 res2 hs
    exact renderComplete_of_some _ _ _ _ hs

/-- C6 witness: with a cached summary, re-entering the completion view
is a no-op on the concrete completed session. -/
theorem c6_summary_once_witness :
    ({ initSession with final_summary := some (JValue.str "done") } :
        SessionState).final_summary = some (JValue.str "done") ∧
    renderComplete [] { initSession with final_summary := some (JValue.str "done") }
        "Chemistry" (Except.error ()) =
      { initSession with final_summary := some (JValue.str "done") } :=
  ⟨rfl, c6_summary_once.1 [] _ "Chemistry" (Except.error ()) (JValue.str "done") rfl⟩

/-! ## Claim C8 -/

theorem linkList_map_str (l : List String) :
    linkList (l.map JValue.str) = Except.ok (l.map videoLinkObj) := by
  induction l with
  | nil => rfl
  | cons a l ih => simp [linkList, ih, Except.map]

theorem addVideoLinks_queries (kvs : List (String × JValue)) (qs : List String)
    (hq : dictGet kvs "video_queries" = some (JValue.arr (qs.map JValue.str))) :
    addVideoLinks kvs = Except.ok (JValue.obj (dictSet kvs "video_links"
      (JValue.arr ((qs.take 6).map videoLinkObj)))) := by
  unfold addVideoLinks
  rw [hq]
  dsimp only [Option.getD]
  by_cases hqs : qs = []
  · subst hqs
    rfl
  · rw [if_pos (show (JValue.arr (qs.map JValue.str)).truthy = true by
      simp [JValue.truthy, List.isEmpty_eq_true, hqs])]
    dsimp only [linksFromQueries]
    rw [← List.map_take, linkList_map_str]
    rfl

/-- C8: for a reply whose decoded object carries a string list under
`video_queries`, the normalized feedback's `video_links` pairs exactly
the first six queries with their deterministic search URLs; and the
query "gold foil experiment" maps to the fixed video-search template
with whitespace runs encoded as plus signs. -/
theorem c8_video_links_derivation :
    (∀ (content : String) (kvs : List (String × JValue)) (qs : List String),
       safe_json_loads content = some (JValue.obj kvs) →
       dictGet kvs "video_queries" = some (JValue.arr (qs.map JValue.str)) →
       ∃ kvs2, normalizeFeedback content = Except.ok (JValue.obj kvs2) ∧
         dictGet kvs2 "video_links" =
           some (JValue.arr ((qs.take 6).map videoLinkObj))) ∧
    youtube_search_link "gold foil experiment" =
      "https://www.youtube.com/results?search_query=gold+foil+experiment" := by
  constructor
  · intro content kvs qs h hq
    have hkvs : kvs.isEmpty = false := by
      cases kvs with
      | nil => rw [dictGet] at hq; cases hq
      | cons a r => rfl
    have hnorm : normalizeFeedback content = addVideoLinks kvs := by
      unfold normalizeFeedback
      rw [h]
      dsimp only [Option.getD]
      rw [if_pos (show (JValue.obj kvs).truthy = true by
        simp [JValue.truthy, hkvs])]
    exact ⟨_, hnorm.trans (addVideoLinks_queries kvs qs hq),
      dictGet_dictSet_self _ _ _⟩
  · decide

/-- C8 witness: a concrete reply carrying one video query yields exactly
that query paired with its search URL. -/
theorem c8_video_links_derivation_witness :
    safe_json_loads "\x7b\"video_queries\": [\"gold foil experiment\"]\x7d" =
      some (JValue.obj [("video_queries",
        JValue.arr [JValue.str "gold foil experiment"])]) ∧
    (∃ kvs2, normalizeFeedback "\x7b\"video_queries\": [\"gold foil experiment\"]\x7d" =
        Except.ok (JValue.obj kvs2) ∧
      dictGet kvs2 "video_links" =
        some (JValue.arr ((["gold foil experiment"].take 6).map videoLinkObj))) :=
  ⟨by decide,
   c8_video_links_derivation.1
     "\x7b\"video_queries\": [\"gold foil experiment\"]\x7d"
     [("video_queries", JValue.arr [JValue.str "gold foil experiment"])]
     ["gold foil experiment"] (by decide) (by decide)⟩

/-! ## Claim C9 -/

/-- C9 counterexample: with no sheets backend and no local questions
file — the backing source is unreachable — loading silently returns the
empty question list instead of failing with a load error. -/
theorem c9_counterexample :
    load_questions false (Except.error ()) none = Except.ok [] := rfl

/-- C9 (amended): when the local file exists, a JSON decode failure or
an invalid question entry makes the load fail, a well-formed list is
returned verbatim in order, and of the non-list documents a non-empty
dict or string, a number, a boolean and null make the load fail while an
empty dict or empty string is iterated vacuously and silently yields the
empty question list; when the backing source is unreachable the load
never fails: a failing sheets backend silently falls back to the local
file, and a missing local file silently yields the empty list (also with
a failing sheets backend). -/
theorem c9_load_amended :
    (load_questions false (Except.error ()) none = Except.ok []) ∧
    (load_questions true (Except.error ()) none = Except.ok []) ∧
    (∀ lf, load_questions true (Except.error ()) lf =
       load_questions false (Except.error ()) lf) ∧
    (∀ sr s, jsonParse s = none →
       load_questions false sr (some s) = Except.error "JSONDecodeError") ∧
    (∀ sr s items, jsonParse s = some (JValue.arr items) →
       load_questions false sr (some s) = mkQuestionList items) ∧
    (∀ sr s kvs, jsonParse s = some (JValue.obj kvs) →
       load_questions false sr (some s) =
         if kvs.isEmpty then Except.ok [] else Except.error "TypeError") ∧
    (∀ sr s t, jsonParse s = some (JValue.str t) →
       load_questions false sr (some s) =
         if t = "" then Except.ok [] else Except.error "TypeError") ∧
    (∀ sr s n, jsonParse s = some (JValue.num n) →
       load_questions false sr (some s) = Except.error "TypeError") ∧
    (∀ sr s b, jsonParse s = some (JValue.bool b) →
       load_questions false sr (some s) = Except.error "TypeError") ∧
    (∀ sr s, jsonParse s = some JValue.null →
       load_questions false sr (some s) = Except.error "TypeError") ∧
    (∀ items e v, v ∈ items → mkQuestionRec v = Except.error e →
       ∃ e2, mkQuestionList items = Except.error e2) ∧
    (∀ items qs, mkQuestionList items = Except.ok qs →
       List.Forall₂ (fun it q => mkQuestionRec it = Except.ok q) items qs) := by
  refine ⟨rfl, rfl, ?_, ?_, ?_, ?_, ?_, ?_, ?_, ?_, ?_, ?_⟩
  · intro lf
    unfold load_questions
    rfl
  · intro sr s h
    unfold load_questions
    dsimp only
    rw [h]
    rfl
  · intro sr s items h
    unfold load_questions
    dsimp only
    rw [h]
    rfl
  · intro sr s kvs h
    unfold load_questions
    dsimp only
    rw [h]
    rfl
  · intro sr s t h
    unfold load_questions
    dsimp only
    rw [h]
    rfl
  · intro sr s n h
    unfold load_questions
    dsimp only
    rw [h]
    rfl
  · intro sr s b h
    unfold load_questions
    dsimp only
    rw [h]
    rfl
  · intro sr s h
    unfold load_questions
    dsimp only
    rw [h]
    rfl
  · intro items e v hm herr
    induction items with
    | nil => cases hm
    | cons w rest ih =>
      rcases List.mem_cons.mp hm with heq | hrest
      · subst heq
        exact ⟨e, by simp [mkQuestionList, herr]⟩
      · cases hw : mkQuestionRec w with
        | error e3 => exact ⟨e3, by simp [mkQuestionList, hw]⟩
        | ok q =>
          rcases ih hrest with ⟨e2, h2⟩
          exact ⟨e2, by simp [mkQuestionList, hw, h2, Except.map]⟩
  · intro items
    induction items with
    | nil =>
      intro qs h
      cases qs with
      | nil => exact List.Forall₂.nil
      | cons q qs2 => cases h
    | cons v rest ih =>
      intro qs h
      rw [mkQuestionList] at h
      cases hv : mkQuestionRec v with
      | error e => rw [hv] at h; cases h
      | ok q =>
        rw [hv] at h
        cases hr : mkQuestionList rest with
        | error e => rw [hr] at h; cases h
        | ok qs2 =>
          rw [hr] at h
          simp only [Except.map] at h
          cases h
          exact List.Forall₂.cons hv (ih qs2 hr)

/-- C9 witness: a local file holding non-JSON text makes the load fail
with a decode error. -/
theorem c9_load_amended_witness :
    jsonParse "nope" = none ∧
    load_questions false (Except.error ()) (some "nope") =
      Except.error "JSONDecodeError" :=
  ⟨by decide, c9_load_amended.2.2.2.1 (Except.error ()) "nope" (by decide)⟩

end Adya
